import Mathlib

/-!
Verification of the streaming response decoder of the claude-agent-sdk-rust
repository.  The development shallowly embeds, from the source:

* the JSON value model and the behaviour of serde_json string parsing as
  configured by the derive attributes in src/streaming.rs and src/types.rs
  (tagged enums, renamed fields, optional fields);
* the typed event model of src/streaming.rs (StreamEvent, ContentDelta,
  MessageMetadata, MessageDelta, StreamError) and src/types.rs
  (Role, StopReason, ContentBlock, Usage, ...);
* the error enum of src/error.rs with is_retryable and retry_after;
* the per-event decoding closure and the filtering pipeline of
  send_streaming_anthropic in src/client.rs (lines 388-429);
* the SSE frame parser.  The frame parser is NOT part of the repository
  (the source delegates to the eventsource-stream crate via
  byte_stream.eventsource()), so it is modelled from the spec, as an
  incremental character-level state machine that buffers partial records
  across chunk boundaries.

Strings are modelled as lists of characters (Str).  Byte chunks are lists
of characters; the wire format in scope is ASCII.
-/

set_option maxRecDepth 100000

/-- Character strings of the model: a Rust String or str slice is embedded
as its list of characters. -/
abbrev Str := List Char

/-- Newline character. -/
def nlChar : Char := Char.ofNat 10

/-- Single quote character, written numerically. -/
def sqChar : Char := Char.ofNat 39

/-- Double quote character. -/
def dqChar : Char := Char.ofNat 34

/-- Opening curly brace character. -/
def lbraceChar : Char := Char.ofNat 123

/-- Closing curly brace character. -/
def rbraceChar : Char := Char.ofNat 125

/-- Opening square bracket character. -/
def lbrackChar : Char := Char.ofNat 91

/-- Closing square bracket character. -/
def rbrackChar : Char := Char.ofNat 93

/-- Backslash character. -/
def bslashChar : Char := Char.ofNat 92

/-- JSON insignificant whitespace, per serde_json (space, tab, newline,
carriage return). -/
def isJsonWs (c : Char) : Bool :=
  c = ' ' ∨ c = '\t' ∨ c = nlChar ∨ c = '\r'

/-- Drop leading JSON whitespace. -/
def skipWs (s : Str) : Str := s.dropWhile isJsonWs

/-- JSON value model, mirroring serde_json::Value restricted to integer
numbers (the streaming decoder claims never involve non-integer numbers). -/
inductive Json where
  | null : Json
  | bool (b : Bool) : Json
  | num (n : Int) : Json
  | str (s : Str) : Json
  | arr (elems : List Json) : Json
  | obj (fields : List (Str × Json)) : Json

/-- Value of a hexadecimal digit character. -/
def hexVal (c : Char) : Option Nat :=
  if c.isDigit then some (c.toNat - 48)
  else if 'a' ≤ c ∧ c ≤ 'f' then some (c.toNat - 87)
  else if 'A' ≤ c ∧ c ≤ 'F' then some (c.toNat - 70)
  else none

/-- Parse the body of a JSON string after the opening quote, handling the
escape sequences serde_json accepts.  Unicode escapes denoting surrogate
halves are rejected by the model (no claim exercises them).  Returns the
decoded string and the remaining input after the closing quote. -/
def parseStringBody : Str → Except Str (Str × Str)
  | [] => Except.error "EOF while parsing a string".data
  | c :: rest =>
    if c = dqChar then Except.ok ([], rest)
    else if c = bslashChar then
      match rest with
      | [] => Except.error "EOF while parsing a string".data
      | e :: rest2 =>
        if e = dqChar then
          (parseStringBody rest2).map (fun p => (dqChar :: p.1, p.2))
        else if e = bslashChar then
          (parseStringBody rest2).map (fun p => (bslashChar :: p.1, p.2))
        else if e = '/' then
          (parseStringBody rest2).map (fun p => ('/' :: p.1, p.2))
        else if e = 'n' then
          (parseStringBody rest2).map (fun p => (nlChar :: p.1, p.2))
        else if e = 't' then
          (parseStringBody rest2).map (fun p => ('\t' :: p.1, p.2))
        else if e = 'r' then
          (parseStringBody rest2).map (fun p => ('\r' :: p.1, p.2))
        else if e = 'b' then
          (parseStringBody rest2).map (fun p => (Char.ofNat 8 :: p.1, p.2))
        else if e = 'f' then
          (parseStringBody rest2).map (fun p => (Char.ofNat 12 :: p.1, p.2))
        else if e = 'u' then
          match rest2 with
          | h1 :: h2 :: h3 :: h4 :: rest3 =>
            match hexVal h1, hexVal h2, hexVal h3, hexVal h4 with
            | some a, some b, some c2, some d =>
              let n := ((a * 16 + b) * 16 + c2) * 16 + d
              if 55296 ≤ n ∧ n ≤ 57343 then
                Except.error "unexpected end of hex escape".data
              else
                (parseStringBody rest3).map (fun p => (Char.ofNat n :: p.1, p.2))
            | _, _, _, _ => Except.error "invalid escape".data
          | _ => Except.error "EOF while parsing a string".data
        else Except.error "invalid escape".data
    else (parseStringBody rest).map (fun p => (c :: p.1, p.2))

/-- Split a string into its maximal leading run of decimal digits and the
rest. -/
def takeDigits : Str → Str × Str
  | [] => ([], [])
  | c :: rest =>
    if c.isDigit then
      let p := takeDigits rest
      (c :: p.1, p.2)
    else ([], c :: rest)

/-- Numeric value of a digit string. -/
def digitsToNat (ds : Str) : Nat :=
  ds.foldl (fun a c => a * 10 + (c.toNat - 48)) 0

/-- Parse a JSON number starting at the first character of the number.
The model restricts JSON numbers to (signed) integers: a fraction or
exponent part is rejected.  No claim involves non-integer numbers. -/
def parseNumber (s : Str) : Except Str (Json × Str) :=
  let p := match s with
    | c :: rest => if c = '-' then (true, rest) else (false, s)
    | [] => (false, s)
  match takeDigits p.2 with
  | ([], _) => Except.error "expected value".data
  | (ds, r) =>
    match r with
    | c :: _ =>
      if c = '.' ∨ c = 'e' ∨ c = 'E' then
        Except.error "invalid number".data
      else
        Except.ok (Json.num (if p.1 then -(digitsToNat ds : Int) else (digitsToNat ds : Int)), r)
    | [] =>
      Except.ok (Json.num (if p.1 then -(digitsToNat ds : Int) else (digitsToNat ds : Int)), r)

/-- Parsing mode of the JSON parser core: a value, the fields of an object
(after the opening brace or after a comma), or the elements of an array. -/
inductive PMode where
  | value : PMode
  | objFields (first : Bool) : PMode
  | arrElems (first : Bool) : PMode

/-- Intermediate result of the JSON parser core. -/
inductive PRes where
  | val (j : Json) : PRes
  | fields (fs : List (Str × Json)) : PRes
  | elems (es : List Json) : PRes

/-- Recursive core of the JSON text parser, structurally recursive on a
fuel bound; parseJson supplies fuel larger than any possible chain of
recursive calls (each call consumes at least one input character). -/
def parseCore : Nat → PMode → Str → Except Str (PRes × Str)
  | 0, _, _ => Except.error "recursion limit exceeded".data
  | Nat.succ fuel, PMode.value, s =>
    match skipWs s with
    | [] => Except.error "EOF while parsing a value".data
    | c :: rest =>
      if c = dqChar then
        (parseStringBody rest).map (fun p => (PRes.val (Json.str p.1), p.2))
      else if c = lbraceChar then
        match parseCore fuel (PMode.objFields true) rest with
        | Except.ok (PRes.fields fs, r) => Except.ok (PRes.val (Json.obj fs), r)
        | Except.ok (_, _) => Except.error "invalid object".data
        | Except.error e => Except.error e
      else if c = lbrackChar then
        match parseCore fuel (PMode.arrElems true) rest with
        | Except.ok (PRes.elems es, r) => Except.ok (PRes.val (Json.arr es), r)
        | Except.ok (_, _) => Except.error "invalid array".data
        | Except.error e => Except.error e
      else if c = 't' then
        match rest with
        | 'r' :: 'u' :: 'e' :: r => Except.ok (PRes.val (Json.bool true), r)
        | _ => Except.error "expected value".data
      else if c = 'f' then
        match rest with
        | 'a' :: 'l' :: 's' :: 'e' :: r => Except.ok (PRes.val (Json.bool false), r)
        | _ => Except.error "expected value".data
      else if c = 'n' then
        match rest with
        | 'u' :: 'l' :: 'l' :: r => Except.ok (PRes.val Json.null, r)
        | _ => Except.error "expected value".data
      else if c = '-' ∨ c.isDigit then
        (parseNumber (c :: rest)).map (fun p => (PRes.val p.1, p.2))
      else Except.error "expected value".data
  | Nat.succ fuel, PMode.objFields first, s =>
    match skipWs s with
    | [] => Except.error "EOF while parsing an object".data
    | c :: rest =>
      if c = rbraceChar ∧ first then Except.ok (PRes.fields [], rest)
      else if c = dqChar then
        match parseStringBody rest with
        | Except.error e => Except.error e
        | Except.ok (key, afterKey) =>
          match skipWs afterKey with
          | ':' :: afterColon =>
            match parseCore fuel PMode.value afterColon with
            | Except.error e => Except.error e
            | Except.ok (PRes.val v, afterVal) =>
              match skipWs afterVal with
              | ',' :: afterComma =>
                match parseCore fuel (PMode.objFields false) afterComma with
                | Except.ok (PRes.fields fs, r) => Except.ok (PRes.fields ((key, v) :: fs), r)
                | Except.ok (_, _) => Except.error "invalid object".data
                | Except.error e => Except.error e
              | c2 :: afterBrace =>
                if c2 = rbraceChar then Except.ok (PRes.fields [(key, v)], afterBrace)
                else Except.error "expected comma or closing brace".data
              | [] => Except.error "EOF while parsing an object".data
            | Except.ok (_, _) => Except.error "invalid object".data
          | _ => Except.error "expected colon".data
      else Except.error "key must be a string".data
  | Nat.succ fuel, PMode.arrElems first, s =>
    match skipWs s with
    | [] => Except.error "EOF while parsing a list".data
    | c :: rest =>
      if c = rbrackChar ∧ first then Except.ok (PRes.elems [], rest)
      else
        match parseCore fuel PMode.value (c :: rest) with
        | Except.error e => Except.error e
        | Except.ok (PRes.val v, afterVal) =>
          match skipWs afterVal with
          | ',' :: afterComma =>
            match parseCore fuel (PMode.arrElems false) afterComma with
            | Except.ok (PRes.elems es, r) => Except.ok (PRes.elems (v :: es), r)
            | Except.ok (_, _) => Except.error "invalid array".data
            | Except.error e => Except.error e
          | c2 :: afterBrack =>
            if c2 = rbrackChar then Except.ok (PRes.elems [v], afterBrack)
            else Except.error "expected comma or closing bracket".data
          | [] => Except.error "EOF while parsing a list".data
        | Except.ok (_, _) => Except.error "invalid array".data

/-- Parse a complete JSON document, modelling serde_json text parsing:
one value, possibly surrounded by whitespace; anything after the value is
a trailing-characters error.  Error descriptions follow the wording of
serde_json, with positions (line and column) elided. -/
def parseJson (s : Str) : Except Str Json :=
  match parseCore (s.length + 2) PMode.value s with
  | Except.ok (PRes.val j, rest) =>
    if skipWs rest = [] then Except.ok j
    else Except.error "trailing characters".data
  | Except.ok (_, _) => Except.error "invalid document".data
  | Except.error e => Except.error e

/-!
Typed event model, embedded from src/types.rs and src/streaming.rs.
Field and variant names follow the Rust declarations; serde renames are
noted on the decoders.
-/

/-- Role in a conversation (src/types.rs lines 31-36). -/
inductive Role where
  | user : Role
  | assistant : Role

/-- Stop reason for a message (src/types.rs lines 699-716). -/
inductive StopReason where
  | endTurn : StopReason
  | maxTokens : StopReason
  | stopSequence : StopReason
  | toolUse : StopReason
  | pauseTurn : StopReason

/-- Cache type (src/types.rs lines 182-186). -/
inductive CacheType where
  | ephemeral : CacheType

/-- Cache control for prompt caching (src/types.rs lines 175-180). -/
structure CacheControl where
  cache_type : CacheType

/-- Citation configuration (src/types.rs lines 147-151). -/
structure CitationConfig where
  enabled : Bool

/-- Citation location in a response (src/types.rs lines 153-173). -/
structure Citation where
  citation_type : Str
  source : Str
  title : Option Str
  cited_text : Str
  search_result_index : Nat
  start_block_index : Nat
  end_block_index : Nat

/-- Text block for search result content (src/types.rs lines 115-121). -/
structure TextBlock where
  block_type : Str
  text : Str

/-- Image source for vision (src/types.rs lines 123-135). -/
inductive ImageSource where
  | base64 (media_type : Str) (data : Str) : ImageSource
  | url (url : Str) : ImageSource
  | file (file_id : Str) : ImageSource

/-- Document source (src/types.rs lines 137-145). -/
inductive DocumentSource where
  | file (file_id : Str) : DocumentSource
  | text (media_type : Str) (data : Str) : DocumentSource

/-- Content block in a message (src/types.rs lines 38-113). -/
inductive ContentBlock where
  | text (text : Str) (cache_control : Option CacheControl)
      (citations : Option (List Citation)) : ContentBlock
  | image (source : ImageSource) (cache_control : Option CacheControl) : ContentBlock
  | document (source : DocumentSource) (title : Option Str) (context : Option Str)
      (citations : Option CitationConfig) (cache_control : Option CacheControl) : ContentBlock
  | toolUse (id : Str) (name : Str) (input : Json)
      (cache_control : Option CacheControl) : ContentBlock
  | toolResult (tool_use_id : Str) (content : Option Str)
      (is_error : Option Bool) : ContentBlock
  | thinking (thinking : Str) (signature : Option Str) : ContentBlock
  | redactedThinking (data : Str) : ContentBlock
  | searchResult (source : Str) (title : Str) (content : List TextBlock)
      (citations : Option CitationConfig) (cache_control : Option CacheControl) : ContentBlock

/-- Token usage information (src/types.rs lines 318-331). -/
structure Usage where
  input_tokens : Nat
  output_tokens : Nat
  cache_creation_input_tokens : Option Nat
  cache_read_input_tokens : Option Nat

/-- Message metadata provided at stream start (src/streaming.rs lines 149-170). -/
structure MessageMetadata where
  id : Str
  message_type : Str
  role : Role
  content : List ContentBlock
  model : Str
  stop_reason : Option StopReason
  stop_sequence : Option Str
  usage : Usage

/-- Delta update to content (src/streaming.rs lines 172-188). -/
inductive ContentDelta where
  | textDelta (text : Str) : ContentDelta
  | inputJsonDelta (partial_json : Str) : ContentDelta
  | thinkingDelta (thinking : Str) : ContentDelta
  | signatureDelta (signature : Str) : ContentDelta

/-- Delta update to the message (src/streaming.rs lines 224-231). -/
structure MessageDelta where
  stop_reason : Option StopReason
  stop_sequence : Option Str

/-- Error in the stream (src/streaming.rs lines 233-240). -/
structure StreamError where
  error_type : Str
  message : Str

/-- Events emitted during streaming responses (src/streaming.rs lines 115-147). -/
inductive StreamEvent where
  | messageStart (message : MessageMetadata) : StreamEvent
  | contentBlockStart (index : Nat) (content_block : ContentBlock) : StreamEvent
  | contentBlockDelta (index : Nat) (delta : ContentDelta) : StreamEvent
  | contentBlockStop (index : Nat) : StreamEvent
  | messageDelta (delta : MessageDelta) (usage : Usage) : StreamEvent
  | messageStop : StreamEvent
  | ping : StreamEvent
  | error (error : StreamError) : StreamEvent

/-!
Deserializers, modelling the serde derive output for the types above.
Serde conventions embedded here: unknown object fields are ignored; a
missing required field is an error; a field of Option type defaults to
none when missing and maps null to none; internally tagged enums select
the variant from the embedded type field.  Error descriptions follow
serde wording with positions elided.  The model resolves a duplicated
field to its first occurrence (serde_json rejects duplicates in derived
structs; no claim involves duplicate fields).
-/

/-- Missing-field error description, as serde formats it. -/
def missingFieldMsg (name : Str) : Str :=
  "missing field `".data ++ name ++ "`".data

/-- Unknown-variant error description, as serde formats it. -/
def unknownVariantMsg (v : Str) : Str :=
  "unknown variant `".data ++ v ++ "`".data

/-- Look up a field of a JSON object by name. -/
def findField (fs : List (Str × Json)) (name : Str) : Option Json :=
  match fs.find? (fun p => p.1 == name) with
  | some p => some p.2
  | none => none

/-- Require a field of a JSON object. -/
def reqField (fs : List (Str × Json)) (name : Str) : Except Str Json :=
  match findField fs name with
  | some j => Except.ok j
  | none => Except.error (missingFieldMsg name)

/-- Expect a JSON string. -/
def asStr : Json → Except Str Str
  | Json.str s => Except.ok s
  | _ => Except.error "invalid type".data

/-- Expect a JSON object. -/
def asObj : Json → Except Str (List (Str × Json))
  | Json.obj fs => Except.ok fs
  | _ => Except.error "invalid type".data

/-- Expect a JSON array. -/
def asArr : Json → Except Str (List Json)
  | Json.arr es => Except.ok es
  | _ => Except.error "invalid type".data

/-- Expect a JSON boolean. -/
def asBool : Json → Except Str Bool
  | Json.bool b => Except.ok b
  | _ => Except.error "invalid type".data

/-- Deserialize a usize: a non-negative JSON integer. -/
def asUsize : Json → Except Str Nat
  | Json.num n => if 0 ≤ n then Except.ok n.toNat else Except.error "invalid value".data
  | _ => Except.error "invalid type".data

/-- Deserialize a u32: a JSON integer in the u32 range. -/
def asU32 : Json → Except Str Nat
  | Json.num n =>
    if 0 ≤ n ∧ n < 4294967296 then Except.ok n.toNat
    else Except.error "invalid value".data
  | _ => Except.error "invalid type".data

/-- Optional field: missing or null gives none, otherwise the inner
deserializer applies. -/
def optField (fs : List (Str × Json)) (name : Str)
    (de : Json → Except Str α) : Except Str (Option α) :=
  match findField fs name with
  | none => Except.ok none
  | some Json.null => Except.ok none
  | some j => (de j).map some

/-- Deserialize Role (serde rename_all lowercase). -/
def deRole (j : Json) : Except Str Role := do
  let s ← asStr j
  if s == "user".data then pure Role.user
  else if s == "assistant".data then pure Role.assistant
  else Except.error (unknownVariantMsg s)

/-- Deserialize StopReason (serde rename_all snake_case). -/
def deStopReason (j : Json) : Except Str StopReason := do
  let s ← asStr j
  if s == "end_turn".data then pure StopReason.endTurn
  else if s == "max_tokens".data then pure StopReason.maxTokens
  else if s == "stop_sequence".data then pure StopReason.stopSequence
  else if s == "tool_use".data then pure StopReason.toolUse
  else if s == "pause_turn".data then pure StopReason.pauseTurn
  else Except.error (unknownVariantMsg s)

/-- Deserialize CacheType (serde rename_all lowercase). -/
def deCacheType (j : Json) : Except Str CacheType := do
  let s ← asStr j
  if s == "ephemeral".data then pure CacheType.ephemeral
  else Except.error (unknownVariantMsg s)

/-- Deserialize CacheControl (field type renamed to cache_type). -/
def deCacheControl (j : Json) : Except Str CacheControl := do
  let fs ← asObj j
  let t ← reqField fs "type".data
  let ct ← deCacheType t
  pure { cache_type := ct }

/-- Deserialize CitationConfig. -/
def deCitationConfig (j : Json) : Except Str CitationConfig := do
  let fs ← asObj j
  let e ← reqField fs "enabled".data
  let b ← asBool e
  pure { enabled := b }

/-- Deserialize Citation (field type renamed to citation_type). -/
def deCitation (j : Json) : Except Str Citation := do
  let fs ← asObj j
  let ct ← reqField fs "type".data >>= asStr
  let source ← reqField fs "source".data >>= asStr
  let title ← optField fs "title".data asStr
  let cited ← reqField fs "cited_text".data >>= asStr
  let sri ← reqField fs "search_result_index".data >>= asUsize
  let sbi ← reqField fs "start_block_index".data >>= asUsize
  let ebi ← reqField fs "end_block_index".data >>= asUsize
  pure { citation_type := ct, source := source, title := title, cited_text := cited,
         search_result_index := sri, start_block_index := sbi, end_block_index := ebi }

/-- Deserialize TextBlock (field type renamed to block_type). -/
def deTextBlock (j : Json) : Except Str TextBlock := do
  let fs ← asObj j
  let bt ← reqField fs "type".data >>= asStr
  let t ← reqField fs "text".data >>= asStr
  pure { block_type := bt, text := t }

/-- Deserialize ImageSource (internally tagged by type, snake_case). -/
def deImageSource (j : Json) : Except Str ImageSource := do
  let fs ← asObj j
  let tag ← reqField fs "type".data >>= asStr
  if tag == "base64".data then do
    let mt ← reqField fs "media_type".data >>= asStr
    let d ← reqField fs "data".data >>= asStr
    pure (ImageSource.base64 mt d)
  else if tag == "url".data then do
    let u ← reqField fs "url".data >>= asStr
    pure (ImageSource.url u)
  else if tag == "file".data then do
    let f ← reqField fs "file_id".data >>= asStr
    pure (ImageSource.file f)
  else Except.error (unknownVariantMsg tag)

/-- Deserialize DocumentSource (internally tagged by type, snake_case). -/
def deDocumentSource (j : Json) : Except Str DocumentSource := do
  let fs ← asObj j
  let tag ← reqField fs "type".data >>= asStr
  if tag == "file".data then do
    let f ← reqField fs "file_id".data >>= asStr
    pure (DocumentSource.file f)
  else if tag == "text".data then do
    let mt ← reqField fs "media_type".data >>= asStr
    let d ← reqField fs "data".data >>= asStr
    pure (DocumentSource.text mt d)
  else Except.error (unknownVariantMsg tag)

/-- Deserialize ContentBlock (internally tagged by type, snake_case). -/
def deContentBlock (j : Json) : Except Str ContentBlock := do
  let fs ← asObj j
  let tag ← reqField fs "type".data >>= asStr
  if tag == "text".data then do
    let t ← reqField fs "text".data >>= asStr
    let cc ← optField fs "cache_control".data deCacheControl
    let cits ← optField fs "citations".data (fun cj => asArr cj >>= List.mapM deCitation)
    pure (ContentBlock.text t cc cits)
  else if tag == "image".data then do
    let src ← reqField fs "source".data >>= deImageSource
    let cc ← optField fs "cache_control".data deCacheControl
    pure (ContentBlock.image src cc)
  else if tag == "document".data then do
    let src ← reqField fs "source".data >>= deDocumentSource
    let title ← optField fs "title".data asStr
    let ctx ← optField fs "context".data asStr
    let cits ← optField fs "citations".data deCitationConfig
    let cc ← optField fs "cache_control".data deCacheControl
    pure (ContentBlock.document src title ctx cits cc)
  else if tag == "tool_use".data then do
    let id ← reqField fs "id".data >>= asStr
    let nm ← reqField fs "name".data >>= asStr
    let inp ← reqField fs "input".data
    let cc ← optField fs "cache_control".data deCacheControl
    pure (ContentBlock.toolUse id nm inp cc)
  else if tag == "tool_result".data then do
    let tid ← reqField fs "tool_use_id".data >>= asStr
    let cont ← optField fs "content".data asStr
    let ie ← optField fs "is_error".data asBool
    pure (ContentBlock.toolResult tid cont ie)
  else if tag == "thinking".data then do
    let th ← reqField fs "thinking".data >>= asStr
    let sig ← optField fs "signature".data asStr
    pure (ContentBlock.thinking th sig)
  else if tag == "redacted_thinking".data then do
    let d ← reqField fs "data".data >>= asStr
    pure (ContentBlock.redactedThinking d)
  else if tag == "search_result".data then do
    let src ← reqField fs "source".data >>= asStr
    let title ← reqField fs "title".data >>= asStr
    let cont ← reqField fs "content".data >>= asArr >>= List.mapM deTextBlock
    let cits ← optField fs "citations".data deCitationConfig
    let cc ← optField fs "cache_control".data deCacheControl
    pure (ContentBlock.searchResult src title cont cits cc)
  else Except.error (unknownVariantMsg tag)

/-- Deserialize Usage. -/
def deUsage (j : Json) : Except Str Usage := do
  let fs ← asObj j
  let it ← reqField fs "input_tokens".data >>= asU32
  let ot ← reqField fs "output_tokens".data >>= asU32
  let cc ← optField fs "cache_creation_input_tokens".data asU32
  let cr ← optField fs "cache_read_input_tokens".data asU32
  pure { input_tokens := it, output_tokens := ot,
         cache_creation_input_tokens := cc, cache_read_input_tokens := cr }

/-- Deserialize MessageMetadata (field type renamed to message_type; the
content field carries a serde default, so a missing content is the empty
list). -/
def deMessageMetadata (j : Json) : Except Str MessageMetadata := do
  let fs ← asObj j
  let id ← reqField fs "id".data >>= asStr
  let mt ← reqField fs "type".data >>= asStr
  let role ← reqField fs "role".data >>= deRole
  let content ←
    match findField fs "content".data with
    | none => pure ([] : List ContentBlock)
    | some cj => asArr cj >>= List.mapM deContentBlock
  let model ← reqField fs "model".data >>= asStr
  let sr ← optField fs "stop_reason".data deStopReason
  let ss ← optField fs "stop_sequence".data asStr
  let usage ← reqField fs "usage".data >>= deUsage
  pure { id := id, message_type := mt, role := role, content := content,
         model := model, stop_reason := sr, stop_sequence := ss, usage := usage }

/-- Deserialize ContentDelta (internally tagged by type, snake_case). -/
def deContentDelta (j : Json) : Except Str ContentDelta := do
  let fs ← asObj j
  let tag ← reqField fs "type".data >>= asStr
  if tag == "text_delta".data then do
    let t ← reqField fs "text".data >>= asStr
    pure (ContentDelta.textDelta t)
  else if tag == "input_json_delta".data then do
    let p ← reqField fs "partial_json".data >>= asStr
    pure (ContentDelta.inputJsonDelta p)
  else if tag == "thinking_delta".data then do
    let t ← reqField fs "thinking".data >>= asStr
    pure (ContentDelta.thinkingDelta t)
  else if tag == "signature_delta".data then do
    let s ← reqField fs "signature".data >>= asStr
    pure (ContentDelta.signatureDelta s)
  else Except.error (unknownVariantMsg tag)

/-- Deserialize MessageDelta. -/
def deMessageDelta (j : Json) : Except Str MessageDelta := do
  let fs ← asObj j
  let sr ← optField fs "stop_reason".data deStopReason
  let ss ← optField fs "stop_sequence".data asStr
  pure { stop_reason := sr, stop_sequence := ss }

/-- Deserialize StreamError (field type renamed to error_type). -/
def deStreamError (j : Json) : Except Str StreamError := do
  let fs ← asObj j
  let et ← reqField fs "type".data >>= asStr
  let msg ← reqField fs "message".data >>= asStr
  pure { error_type := et, message := msg }

/-- Deserialize StreamEvent (internally tagged by type, snake_case): the
variant is selected from the embedded type field of the payload. -/
def deStreamEvent (j : Json) : Except Str StreamEvent := do
  let fs ← asObj j
  let tag ← reqField fs "type".data >>= asStr
  if tag == "message_start".data then do
    let m ← reqField fs "message".data >>= deMessageMetadata
    pure (StreamEvent.messageStart m)
  else if tag == "content_block_start".data then do
    let idx ← reqField fs "index".data >>= asUsize
    let cb ← reqField fs "content_block".data >>= deContentBlock
    pure (StreamEvent.contentBlockStart idx cb)
  else if tag == "content_block_delta".data then do
    let idx ← reqField fs "index".data >>= asUsize
    let d ← reqField fs "delta".data >>= deContentDelta
    pure (StreamEvent.contentBlockDelta idx d)
  else if tag == "content_block_stop".data then do
    let idx ← reqField fs "index".data >>= asUsize
    pure (StreamEvent.contentBlockStop idx)
  else if tag == "message_delta".data then do
    let d ← reqField fs "delta".data >>= deMessageDelta
    let u ← reqField fs "usage".data >>= deUsage
    pure (StreamEvent.messageDelta d u)
  else if tag == "message_stop".data then
    pure StreamEvent.messageStop
  else if tag == "ping".data then
    pure StreamEvent.ping
  else if tag == "error".data then do
    let e ← reqField fs "error".data >>= deStreamError
    pure (StreamEvent.error e)
  else Except.error (unknownVariantMsg tag)

/-- Parse a string as a StreamError, modelling
serde_json::from_str::<StreamError> in src/client.rs line 405. -/
def parseStreamError (s : Str) : Except Str StreamError :=
  (parseJson s).bind deStreamError

/-- Parse a string as a StreamEvent, modelling
serde_json::from_str::<StreamEvent> in src/client.rs line 413. -/
def parseStreamEvent (s : Str) : Except Str StreamEvent :=
  (parseJson s).bind deStreamEvent

/-!
Error type of the SDK, embedded from src/error.rs.  Payloads of wrapped
foreign errors (reqwest, serde_json) are embedded as their display
strings.
-/

/-- Main error type for SDK operations (src/error.rs lines 160-242). -/
inductive Error where
  | http (msg : Str) : Error
  | json (msg : Str) : Error
  | api (status : Nat) (message : Str) (error_type : Option Str) : Error
  | rateLimit (retry_after : Option Nat) (message : Str) : Error
  | invalidRequest (msg : Str) : Error
  | authentication (msg : Str) : Error
  | server (status : Nat) (message : Str) : Error
  | network (msg : Str) : Error
  | streamParse (msg : Str) : Error

/-- Check if this error is retryable (src/error.rs lines 263-270). -/
def Error.is_retryable : Error → Bool
  | Error.rateLimit _ _ => true
  | Error.server status _ => 500 ≤ status
  | Error.network _ => true
  | _ => false

/-- Get the retry-after duration in seconds if available
(src/error.rs lines 289-294). -/
def Error.retry_after : Error → Option Nat
  | Error.rateLimit ra _ => ra
  | _ => none

/-!
SSE frame parser.  Modelled from the spec: the source converts the HTTP
byte stream with byte_stream.eventsource() from the eventsource-stream
crate (src/client.rs lines 389-390), whose code is not part of this
repository.  Per the spec, the parser converts an unbounded, chunked
byte stream into a sequence of raw records, buffering incomplete
trailing data across chunk boundaries and emitting a record only once
its terminating blank line is observed; a record consists of an
event-name line (event: name) and zero or more data lines (data:
payload) joined with newlines; the default event name, when no event
line is present, is the SSE default, message.  The machine below
consumes one character at a time, so chunk boundaries cannot influence
it by construction.
-/

/-- A raw SSE frame: event name plus data payload. -/
structure SSEFrame where
  event : Str
  data : Str

/-- State of the incremental record scanner: records completed so far,
the characters of the record in progress, and whether the previous
character was a newline (so that a second newline terminates the
record). -/
structure SSEScanState where
  recs : List Str
  cur : Str
  lastNl : Bool

/-- Initial scanner state. -/
def initScanState : SSEScanState := { recs := [], cur := [], lastNl := false }

/-- Feed one character to the record scanner.  A blank line (two
consecutive newlines) completes the record in progress; a lone newline
is held back until the next character shows whether it ends the record. -/
def stepChar (s : SSEScanState) (c : Char) : SSEScanState :=
  if c = nlChar then
    if s.lastNl then { recs := s.recs ++ [s.cur], cur := [], lastNl := false }
    else { recs := s.recs, cur := s.cur, lastNl := true }
  else
    if s.lastNl then { recs := s.recs, cur := s.cur ++ [nlChar, c], lastNl := false }
    else { recs := s.recs, cur := s.cur ++ [c], lastNl := false }

/-- Feed one byte chunk to the record scanner. -/
def feedChunk (s : SSEScanState) (chunk : Str) : SSEScanState :=
  chunk.foldl stepChar s

/-- Feed a whole sequence of byte chunks, starting from the initial
state.  A trailing incomplete record (no terminating blank line before
the end of the byte source) is never emitted. -/
def feedAll (chunks : List Str) : SSEScanState :=
  chunks.foldl feedChunk initScanState

/-- Split a record into its lines (separator: newline). -/
def splitLines : Str → List Str
  | [] => [[]]
  | c :: rest =>
    if c = nlChar then [] :: splitLines rest
    else
      match splitLines rest with
      | l :: ls => (c :: l) :: ls
      | [] => [[c]]

/-- Strip a single leading space of a field payload, per the SSE
convention for a colon followed by a space. -/
def stripOneSpace : Str → Str
  | ' ' :: rest => rest
  | s => s

/-- If the line carries the given field (field name followed by a
colon), return its payload with one leading space stripped. -/
def fieldPayload (fieldName : Str) (line : Str) : Option Str :=
  let pre := fieldName ++ [':']
  if pre.isPrefixOf line then some (stripOneSpace (line.drop pre.length))
  else none

/-- Accumulator for interpreting the lines of one record. -/
structure RecAcc where
  ev : Option Str
  datas : List Str

/-- Interpret one line of a record: an event line sets the event name
(the last one wins), a data line appends a payload line, anything else
is ignored. -/
def recStep (acc : RecAcc) (line : Str) : RecAcc :=
  match fieldPayload "event".data line with
  | some v => { acc with ev := some v }
  | none =>
    match fieldPayload "data".data line with
    | some v => { acc with datas := acc.datas ++ [v] }
    | none => acc

/-- Interpret a complete record as a frame: the event name (default
message) and the data lines joined with newlines. -/
def parseRecord (rec : Str) : SSEFrame :=
  let acc := (splitLines rec).foldl recStep { ev := none, datas := [] }
  { event := acc.ev.getD "message".data, data := List.intercalate [nlChar] acc.datas }

/-- Frames produced by the frame parser for a sequence of byte chunks. -/
def parseFrames (chunks : List Str) : List SSEFrame :=
  (feedAll chunks).recs.map parseRecord

/-!
Event decoding and stream assembly, embedded from
send_streaming_anthropic in src/client.rs (lines 393-429).
-/

/-- The format string applied on a parse failure of a non-ping,
non-error frame (src/client.rs lines 414-417): the event name framed in
single quotes, followed by the serde error description.  The raw data
payload is not interpolated. -/
def parseFailMsg (name msg : Str) : Str :=
  "Failed to parse event ".data ++ [sqChar] ++ name ++ [sqChar] ++ ": ".data ++ msg

/-- The per-event closure of src/client.rs lines 393-424: empty data is
skipped (ok none); a ping frame gives StreamEvent.ping without touching
the payload; an error frame parses the payload as StreamError (failure
gives Error.streamParse of the serde description); all other frames
parse the payload as a tagged StreamEvent (failure gives
Error.streamParse of the formatted message).  The Rust test
event.data.is_empty() is written as equality with the empty string. -/
def decodeSSEEvent (ev : SSEFrame) : Except Error (Option StreamEvent) :=
  if ev.data = [] then Except.ok none
  else if ev.event = "ping".data then Except.ok (some StreamEvent.ping)
  else if ev.event = "error".data then
    match parseStreamError ev.data with
    | Except.ok e => Except.ok (some (StreamEvent.error e))
    | Except.error msg => Except.error (Error.streamParse msg)
  else
    match parseStreamEvent ev.data with
    | Except.ok sev => Except.ok (some sev)
    | Except.error msg => Except.error (Error.streamParse (parseFailMsg ev.event msg))

/-- The assembled consumer-facing sequence: the stream of decoded
results with the ok-none items filtered out, as produced by the map and
try_filter_map combinators of src/client.rs lines 393-427.  Neither
combinator fuses the stream after an error item, so decoding continues
with subsequent frames. -/
def assemble (frames : List SSEFrame) : List (Except Error StreamEvent) :=
  frames.foldr
    (fun f acc =>
      match decodeSSEEvent f with
      | Except.ok none => acc
      | Except.ok (some e) => Except.ok e :: acc
      | Except.error err => Except.error err :: acc)
    []

/-- The full streaming pipeline of send_streaming_anthropic applied to
the byte chunks of the response body: frame parsing, decoding,
filtering. -/
def streamOutput (chunks : List Str) : List (Except Error StreamEvent) :=
  assemble (parseFrames chunks)

/-- Substring test: the needle occurs contiguously in the haystack. -/
def hasSub (hay needle : Str) : Bool :=
  (List.range (hay.length + 1)).any (fun k => needle.isPrefixOf (hay.drop k))

/-- Feeding chunks one at a time equals scanning the concatenation of
the chunks character by character: the scanner state never depends on
where the chunk boundaries fall. -/
theorem foldl_feedChunk_join : ∀ (cs : List Str) (s : SSEScanState),
    cs.foldl feedChunk s = (cs.flatten).foldl stepChar s := by
  intro cs
  induction cs with
  | nil => intro s; rfl
  | cons c cs ih =>
    intro s
    rw [List.flatten_cons, List.foldl_append]
    show cs.foldl feedChunk (feedChunk s c) = _
    rw [ih]
    rfl

/-- One step of the stream assembler. -/
theorem assemble_cons (f : SSEFrame) (rest : List SSEFrame) :
    assemble (f :: rest) =
      match decodeSSEEvent f with
      | Except.ok none => assemble rest
      | Except.ok (some e) => Except.ok e :: assemble rest
      | Except.error err => Except.error err :: assemble rest := rfl

/-- Claim C1: for every well-formed SSE byte log and every pair of ways
of splitting that same log into a sequence of byte chunks, feeding
either chunking through the streaming pipeline (frame parsing, decoding,
filtering in send_streaming_anthropic) yields identical decoded
StreamEvent sequences.  Proved for all byte logs, well-formed or not. -/
theorem claim_C1_chunk_invariance (cs1 cs2 : List Str)
    (h : cs1.flatten = cs2.flatten) : streamOutput cs1 = streamOutput cs2 := by
  simp only [streamOutput, parseFrames, feedAll]
  rw [foldl_feedChunk_join, foldl_feedChunk_join, h]

/-- Witness for claim C1: two different chunkings of the same log give
the same output. -/
theorem claim_C1_witness :
    (["event: pi".data, "ng\ndata: x\n\n".data] : List Str).flatten =
      (["event: ping\nd".data, "ata: x\n\n".data] : List Str).flatten ∧
    streamOutput ["event: pi".data, "ng\ndata: x\n\n".data] =
      streamOutput ["event: ping\nd".data, "ata: x\n\n".data] :=
  ⟨by decide, claim_C1_chunk_invariance _ _ (by decide)⟩

/-- The two chunks of claim C2. -/
def c2Chunks : List Str := ["event: message_sto".data, "p\n\n".data]

/-- Claim C2 counterexample: the three-chunk input (two byte chunks and
end of stream) reassembles to a record with event name message_stop and
no data line; the decoder swallows frames with empty data, so the output
is NOT the singleton MessageStop sequence the claim states. -/
theorem claim_C2_counterexample :
    streamOutput c2Chunks ≠ [Except.ok StreamEvent.messageStop] := by
  have h : streamOutput c2Chunks = [] := rfl
  rw [h]
  exact fun hh => List.noConfusion hh

/-- Claim C2 amended: on the chunks "event: message_sto" and "p\n\n" the
assembled output yields no events at all, because the reassembled record
has an empty data payload and such frames are swallowed. -/
theorem claim_C2_amended : streamOutput c2Chunks = [] := rfl

/-- A ping record with a non-empty data payload, as the wire protocol
sends it. -/
def pingChunk : Str := "event: ping\ndata: \x7b\"type\": \"ping\"\x7d\n\n".data

/-- Claim C3 counterexample: a ping frame with non-empty data DOES put
StreamEvent.ping into the decoded output delivered to the caller; ping
frames are not filtered out. -/
theorem claim_C3_counterexample :
    Except.ok StreamEvent.ping ∈ streamOutput [pingChunk] := by
  have h : streamOutput [pingChunk] = [Except.ok StreamEvent.ping] := rfl
  rw [h]
  exact List.mem_singleton.mpr rfl

/-- Claim C3 amended: ping frames are not filtered out; a ping frame
with non-empty data yields StreamEvent.ping in the consumer-facing
output (only frames with empty data produce nothing). -/
theorem claim_C3_amended (d : Str) (hd : d ≠ []) (rest : List SSEFrame) :
    assemble ({ event := "ping".data, data := d } :: rest) =
      Except.ok StreamEvent.ping :: assemble rest := by
  cases d with
  | nil => exact absurd rfl hd
  | cons c cs => rfl

/-- Witness for claim C3 amended at a concrete ping payload. -/
theorem claim_C3_witness :
    ("\x7b\"type\": \"ping\"\x7d".data : Str) ≠ [] ∧
    assemble [{ event := "ping".data, data := "\x7b\"type\": \"ping\"\x7d".data }] =
      [Except.ok StreamEvent.ping] :=
  ⟨by decide, claim_C3_amended _ (by decide) []⟩

/-- Byte log of claim C4: a frame with unparseable payload followed by a
well-formed message_stop frame. -/
def c4Chunk : Str :=
  "event: message_start\ndata: oops\n\nevent: message_stop\ndata: \x7b\"type\": \"message_stop\"\x7d\n\n".data

/-- The decode error message produced for the first frame of c4Chunk. -/
def c4ErrMsg : Str := parseFailMsg "message_start".data "expected value".data

/-- Claim C4 counterexample: the malformed frame does yield a
StreamParse error, but the stream is not terminated by it: the
well-formed frame after it still produces StreamEvent.messageStop in
the output, contradicting the claim that no further StreamEvent values
are ever produced after the error item. -/
theorem claim_C4_counterexample :
    streamOutput [c4Chunk] =
      [Except.error (Error.streamParse c4ErrMsg), Except.ok StreamEvent.messageStop] ∧
    Except.ok StreamEvent.messageStop ∈ streamOutput [c4Chunk] :=
  ⟨rfl, by
    rw [show streamOutput [c4Chunk] =
        [Except.error (Error.streamParse c4ErrMsg), Except.ok StreamEvent.messageStop] from rfl]
    exact List.mem_cons_of_mem _ (List.mem_singleton.mpr rfl)⟩

/-- Claim C4 amended: for every frame whose event name is neither ping
nor error and whose non-empty data payload is not parseable as a tagged
StreamEvent, the output yields a StreamParse error at the next pull; the
error does not terminate the stream, and decoding continues with the
subsequent frames. -/
theorem claim_C4_amended (name d m : Str) (rest : List SSEFrame)
    (h1 : name ≠ "ping".data) (h2 : name ≠ "error".data) (h3 : d ≠ [])
    (h4 : parseStreamEvent d = Except.error m) :
    assemble ({ event := name, data := d } :: rest) =
      Except.error (Error.streamParse (parseFailMsg name m)) :: assemble rest := by
  have hdec : decodeSSEEvent { event := name, data := d } =
      Except.error (Error.streamParse (parseFailMsg name m)) := by
    simp only [decodeSSEEvent]
    rw [if_neg h3, if_neg h1, if_neg h2, h4]
  rw [assemble_cons, hdec]

/-- Witness for claim C4 amended at a concrete malformed frame. -/
theorem claim_C4_witness :
    parseStreamEvent "oops".data = Except.error "expected value".data ∧
    assemble [{ event := "message_start".data, data := "oops".data }] =
      [Except.error (Error.streamParse
        (parseFailMsg "message_start".data "expected value".data))] :=
  ⟨rfl, claim_C4_amended _ _ _ [] (by decide) (by decide) (by decide) rfl⟩

/-- The error payload of claim C5. -/
def ovPayload : Str :=
  "\x7b\"type\":\"overloaded_error\",\"message\":\"Overloaded\"\x7d".data

/-- Claim C5: an error frame with the overloaded_error payload yields
exactly one event for that frame, StreamEvent.error with error_type
overloaded_error and message Overloaded, and nothing else; and an error
frame whose non-empty payload does not parse as that shape fails with a
StreamParse error. -/
theorem claim_C5_error_frame :
    (∀ rest : List SSEFrame,
      assemble ({ event := "error".data, data := ovPayload } :: rest) =
        Except.ok (StreamEvent.error
          { error_type := "overloaded_error".data, message := "Overloaded".data })
          :: assemble rest) ∧
    (∀ d m : Str, d ≠ [] → parseStreamError d = Except.error m →
      decodeSSEEvent { event := "error".data, data := d } =
        Except.error (Error.streamParse m)) := by
  constructor
  · intro rest
    rfl
  · intro d m hd hm
    simp only [decodeSSEEvent]
    rw [if_neg hd, if_neg (by decide : ¬(("error".data : Str) = "ping".data)),
      if_pos trivial, hm]

/-- Witness for claim C5 at a concrete unparseable error payload. -/
theorem claim_C5_witness :
    ("\x7b".data : Str) ≠ [] ∧
    parseStreamError "\x7b".data = Except.error "EOF while parsing an object".data ∧
    decodeSSEEvent { event := "error".data, data := "\x7b".data } =
      Except.error (Error.streamParse "EOF while parsing an object".data) :=
  ⟨by decide, rfl, claim_C5_error_frame.2 _ _ (by decide) rfl⟩

/-- The content_block_delta payload of claim C6. -/
def c6Payload : Str :=
  "\x7b\"type\":\"content_block_delta\",\"index\":0,\"delta\":\x7b\"type\":\"text_delta\",\"text\":\"Hi\"\x7d\x7d".data

/-- Claim C6: the content_block_delta payload decodes to
StreamEvent.contentBlockDelta with index 0 and a text delta Hi, and the
variant is selected by the embedded type discriminator of the payload,
not by the event name of the frame: any frame name other than ping and
error gives the same result. -/
theorem claim_C6_payload_dispatch (name : Str)
    (h1 : name ≠ "ping".data) (h2 : name ≠ "error".data) :
    decodeSSEEvent { event := name, data := c6Payload } =
      Except.ok (some (StreamEvent.contentBlockDelta 0
        (ContentDelta.textDelta "Hi".data))) := by
  simp only [decodeSSEEvent]
  rw [if_neg (by decide : ¬(c6Payload = [])), if_neg h1, if_neg h2,
    show parseStreamEvent c6Payload =
      Except.ok (StreamEvent.contentBlockDelta 0
        (ContentDelta.textDelta "Hi".data)) from rfl]

/-- Witness for claim C6 at the usual frame name. -/
theorem claim_C6_witness :
    ("content_block_delta".data : Str) ≠ "ping".data ∧
    ("content_block_delta".data : Str) ≠ "error".data ∧
    decodeSSEEvent { event := "content_block_delta".data, data := c6Payload } =
      Except.ok (some (StreamEvent.contentBlockDelta 0
        (ContentDelta.textDelta "Hi".data))) :=
  ⟨by decide, by decide, claim_C6_payload_dispatch _ (by decide) (by decide)⟩

/-- Claim C7: a frame with a zero-length data payload produces no event
in the decoded output (it is swallowed, which is distinct from producing
a Ping) and never causes an error: the decoder returns ok-none and the
assembled output of any frame sequence starting with such a frame is the
output of the remaining frames. -/
theorem claim_C7_empty_payload_swallowed :
    ∀ (name : Str) (rest : List SSEFrame),
      decodeSSEEvent { event := name, data := [] } = Except.ok none ∧
      assemble ({ event := name, data := [] } :: rest) = assemble rest :=
  fun _ _ => ⟨rfl, rfl⟩

/-- Claim C8 counterexample: for the frame with event name message_start
and unparseable payload oops, the decode error message contains the
event name but does NOT contain the raw payload text. -/
theorem claim_C8_counterexample :
    decodeSSEEvent { event := "message_start".data, data := "oops".data } =
      Except.error (Error.streamParse
        (parseFailMsg "message_start".data "expected value".data)) ∧
    hasSub (parseFailMsg "message_start".data "expected value".data)
      "oops".data = false ∧
    hasSub (parseFailMsg "message_start".data "expected value".data)
      "message_start".data = true :=
  ⟨rfl, by decide, by decide⟩

/-- Claim C8 amended: whenever parsing the non-empty payload of a
non-ping, non-error frame fails, the decode error message includes the
event name of the frame (framed in single quotes) together with the
parser error description; the raw payload text is not included. -/
theorem claim_C8_amended (name d m : Str)
    (h1 : name ≠ "ping".data) (h2 : name ≠ "error".data) (h3 : d ≠ [])
    (h4 : parseStreamEvent d = Except.error m) :
    ∃ pre post : Str,
      decodeSSEEvent { event := name, data := d } =
        Except.error (Error.streamParse (pre ++ name ++ post)) := by
  refine ⟨"Failed to parse event ".data ++ [sqChar], [sqChar] ++ ": ".data ++ m, ?_⟩
  have hdec : decodeSSEEvent { event := name, data := d } =
      Except.error (Error.streamParse (parseFailMsg name m)) := by
    simp only [decodeSSEEvent]
    rw [if_neg h3, if_neg h1, if_neg h2, h4]
  rw [hdec]
  simp [parseFailMsg, List.append_assoc]

/-- Witness for claim C8 amended at a concrete malformed frame. -/
theorem claim_C8_witness :
    parseStreamEvent "oops".data = Except.error "expected value".data ∧
    ∃ pre post : Str,
      decodeSSEEvent { event := "message_start".data, data := "oops".data } =
        Except.error (Error.streamParse (pre ++ "message_start".data ++ post)) :=
  ⟨rfl, claim_C8_amended _ _ _ (by decide) (by decide) (by decide) rfl⟩

/-- Claim C9: the empty-payload rule takes precedence over event-name
dispatch: a frame with zero-length data produces no event and no error
even when its event name is error or ping, and in general for every
name. -/
theorem claim_C9_empty_over_name :
    decodeSSEEvent { event := "error".data, data := [] } = Except.ok none ∧
    decodeSSEEvent { event := "ping".data, data := [] } = Except.ok none ∧
    ∀ name : Str, decodeSSEEvent { event := name, data := [] } = Except.ok none :=
  ⟨rfl, rfl, fun _ => rfl⟩

/-- Claim C10: stream decode failures are non-retryable: is_retryable is
false and retry_after is none on streamParse and json errors, and
retry_after returns some only on a rateLimit error carrying a
retry_after value. -/
theorem claim_C10_retryability :
    (∀ m : Str, Error.is_retryable (Error.streamParse m) = false ∧
      Error.retry_after (Error.streamParse m) = none) ∧
    (∀ m : Str, Error.is_retryable (Error.json m) = false ∧
      Error.retry_after (Error.json m) = none) ∧
    (∀ (e : Error) (ra : Nat), Error.retry_after e = some ra →
      ∃ msg : Str, e = Error.rateLimit (some ra) msg) := by
  refine ⟨fun m => ⟨rfl, rfl⟩, fun m => ⟨rfl, rfl⟩, ?_⟩
  intro e ra h
  cases e <;> try exact Option.noConfusion h
  case rateLimit r msg =>
    exact ⟨msg, by rw [show r = some ra from h]⟩

/-- Witness for claim C10 at a concrete rate-limit error. -/
theorem claim_C10_witness :
    Error.retry_after (Error.rateLimit (some 30) "rate limited".data) = some 30 ∧
    ∃ msg : Str, Error.rateLimit (some 30) "rate limited".data =
      Error.rateLimit (some 30) msg :=
  ⟨rfl, claim_C10_retryability.2.2 _ 30 rfl⟩
